import Mathlib

set_option linter.unusedVariables false

/-!
Shallow embedding of the Bedrock/MCP agent workflow core
(src/agent/agent.py and src/agent/utils.py of the repository).

Modelling conventions:
- Python dicts with a fixed shape become Lean structures; the `dict.get(k, d)`
  idiom becomes `Option.getD`.
- The external collaborators (connection to the MCP server, the Bedrock
  completion service, and the tool backend `call_tool`) are black boxes; an
  `Env` record supplies their behaviour at each call site.  A tool call can
  return a result record, time out at the engine's `asyncio.wait_for`, or
  raise; the completion service can return text or throw.
- Machine floats (`execution_time`) are modelled as rationals; the only values
  the engine itself writes are the exact constants 120.0 and 0.0.
- Wall-clock timestamps are opaque strings supplied by the environment.
- `json.loads` plus the fence/brace extraction in `_parse_json_response`
  (utils.py lines 95-114) is pure string tokenisation that either yields a
  JSON value or raises; it is modelled as a `ParsedReply` supplied with the
  completion reply: `unparsable` covers a `json.loads` failure, `notObject`
  covers a parsed non-dict (the `ValueError` raised at line 120 is caught by
  the same `except`), and `object` carries the fields the agent reads.
- The methods `_create_fallback_tools` (called at agent.py line 273) and
  `_create_fallback_response` (called at lines 491 and 505) are defined
  nowhere in the repository, so those calls raise `AttributeError` at run
  time; the embedding models those raises faithfully.
- The 0.5-time-unit inter-call sleep (agent.py line 402) has no observable
  effect on any recorded data and is not represented.
-/

inductive Role
  | user
  | assistant
  deriving DecidableEq, Repr

structure Message where
  role : Role
  content : String
  deriving DecidableEq, Repr

/-- Helper used throughout: the `AIMessage(content=...)` constructor. -/
def mkAI (s : String) : Message := ⟨Role.assistant, s⟩

/-- Tool parameters: a JSON object flattened to string key/value pairs; the
agent core only passes parameters through, never inspects them. -/
abbrev Params := List (String × String)

/-- The shape of a tool result payload as far as the agent inspects it
(`_summarize_result`, agent.py lines 607-623, dispatches on the presence of
the keys "message", "results", "content", "output"); `resultsLen` and
`contentLen` record the lengths the code takes of those values. -/
structure PayloadDict where
  message : Option String
  resultsLen : Option Nat
  contentLen : Option Nat
  outputVal : Option String
  errorVal : Option String
  deriving DecidableEq, Repr

/-- A payload is `none` when `result` is Python-falsy (None or empty dict). -/
abbrev ToolPayload := Option PayloadDict

/-- A planned tool invocation, as produced by the plan synthesizer
("selected_tools" entries).  `sequence` defaults to 0 and `critical` to
False via `.get` in the source; here the defaults are already applied. -/
structure ToolSpec where
  tool : String
  parameters : Params
  sequence : Int
  critical : Bool
  reason : String
  deriving DecidableEq, Repr

/-- Mirror of the `MCPToolResult` dataclass
(src/client_side/utils/mcp_tools_models.py). -/
structure MCPToolResult where
  tool_name : String
  parameters : Params
  result : ToolPayload
  success : Bool
  execution_time : ℚ
  timestamp : String
  error : Option String
  deriving DecidableEq, Repr

/-- Mirror of the `AgentState` TypedDict (agent.py lines 50-58). -/
structure AgentState where
  messages : List Message
  current_task : String
  selected_tools : List ToolSpec
  tool_results : List MCPToolResult
  context : Params
  step_count : Nat
  max_steps : Nat
  final_response : String
  deriving DecidableEq, Repr

/-- Behaviour of one `mcp_client.call_tool` invocation as seen through
`asyncio.wait_for(..., timeout=120)` in `_execute_tools_node`. -/
inductive CallBehavior
  | returns (payload : ToolPayload) (success : Bool) (execution_time : ℚ) (error : Option String)
  | timeout
  | raises (msg : String)
  deriving DecidableEq, Repr

/-- Behaviour of one completion-service (`self.llm.ainvoke`) invocation. -/
inductive CompletionBehavior
  | returns (text : String)
  | throws (msg : String)
  deriving DecidableEq, Repr

/-- Behaviour of `mcp_client.connect()` in `_analyze_request_node`. -/
inductive ConnectBehavior
  | ok
  | notOk
  | raises (msg : String)
  deriving DecidableEq, Repr

/-- Result of extracting and `json.loads`-ing the planning reply text
(see the module docstring). -/
inductive ParsedReply
  | unparsable (msg : String)
  | notObject
  | object (task_analysis : Option String) (selected_tools : Option (List ToolSpec))
      (execution_plan : Option String)
  deriving DecidableEq, Repr

/-- Behaviour of the planning call: the completion service throws, or it
returns text whose parse outcome is the given `ParsedReply`. -/
inductive PlanBehavior
  | throws (msg : String)
  | reply (r : ParsedReply)
  deriving DecidableEq, Repr

/-- One run's view of all external collaborators. -/
structure Env where
  connect : ConnectBehavior
  plan : PlanBehavior
  call : String → Params → CallBehavior
  respond_no_tools : CompletionBehavior
  respond_with_tools : CompletionBehavior
  timestamp : String

/-- The validated analysis record built by `_parse_json_response`
(utils.py lines 116-128) or its except-branch fallback (lines 130-137).
Only the fields the agent subsequently reads are retained. -/
structure Analysis where
  task_analysis : String
  selected_tools : List ToolSpec
  execution_plan : Option String
  deriving DecidableEq, Repr

/-- The fallback record returned by the `except` branch of
`_parse_json_response` (utils.py lines 130-137). -/
def parse_fallback_analysis : Analysis :=
  ⟨"Could not parse analysis response", [], some "Fallback plan"⟩

/-- Embedding of `_parse_json_response` (utils.py lines 91-137) after the
string-extraction step: a parse failure or a non-dict value lands in the
`except` fallback; a dict gets missing required fields filled in. -/
def _parse_json_response : ParsedReply → Analysis
  | .unparsable _ => parse_fallback_analysis
  | .notObject => parse_fallback_analysis
  | .object task tools plan =>
      ⟨task.getD "Task analysis not provided", tools.getD [], plan⟩

/-- Modelled from the repository's runtime behaviour: `self._create_fallback_tools`
(agent.py line 273) names a method that is defined nowhere in the repository,
so Python raises this `AttributeError`. -/
def fallback_tools_attr_error : String :=
  "'BedrockMCPAgent' object has no attribute '_create_fallback_tools'"

/-- Modelled from the repository's runtime behaviour: `self._create_fallback_response`
(agent.py lines 491 and 505) names a method that is defined nowhere in the
repository, so Python raises this `AttributeError`. -/
def fallback_response_attr_error : String :=
  "'BedrockMCPAgent' object has no attribute '_create_fallback_response'"

/-- Embedding of `_analyze_request_node` (agent.py lines 169-307).
When the planning completion call throws, the inner `except` (line 267)
builds a fallback dict whose construction calls the missing method
`_create_fallback_tools`; the resulting `AttributeError` is caught by the
outer `except` (line 298), which clears the plan but leaves `current_task`
untouched. -/
def _analyze_request_node (env : Env) (s : AgentState) : AgentState :=
  match env.connect with
  | .notOk =>
      { s with selected_tools := [],
               messages := s.messages ++
                 [mkAI "Warning: Could not connect to MCP server. Proceeding with basic capabilities only."],
               step_count := s.step_count + 1 }
  | .raises m =>
      { s with selected_tools := [],
               messages := s.messages ++
                 [mkAI ("Warning: MCP server connection failed (" ++ m ++ "). Proceeding with basic capabilities only.")],
               step_count := s.step_count + 1 }
  | .ok =>
    match env.plan with
    | .throws _ =>
        { s with selected_tools := [],
                 messages := s.messages ++
                   [mkAI ("Analysis encountered an error: " ++ fallback_tools_attr_error ++
                     ". Will attempt to provide a basic response.")],
                 step_count := s.step_count + 1 }
    | .reply r =>
        let analysis := _parse_json_response r
        { s with current_task := analysis.task_analysis,
                 selected_tools := analysis.selected_tools,
                 messages := s.messages ++
                   [mkAI ("Analysis Complete\nTask: " ++ analysis.task_analysis ++
                     "\nTools selected: " ++ toString analysis.selected_tools.length ++
                     "\nPlan: " ++ analysis.execution_plan.getD "")],
                 step_count := s.step_count + 1 }

/-- The outcome recorded for one attempted spec inside the per-spec `try`
of `_execute_tools_node` (agent.py lines 339-398): a returned result is
appended as-is; `asyncio.TimeoutError` yields the synthetic timed-out
outcome with elapsed time 120.0; any other exception yields a failed
outcome with elapsed time 0.0. -/
def run_tool_spec (env : Env) (spec : ToolSpec) : MCPToolResult :=
  match env.call spec.tool spec.parameters with
  | .returns payload success t err =>
      ⟨spec.tool, spec.parameters, payload, success, t, env.timestamp, err⟩
  | .timeout =>
      ⟨spec.tool, spec.parameters, some ⟨none, none, none, none, some "Tool execution timed out"⟩,
        false, 120, env.timestamp, some "Tool execution timed out"⟩
  | .raises m =>
      ⟨spec.tool, spec.parameters, some ⟨none, none, none, none, some m⟩,
        false, 0, env.timestamp, some m⟩

/-- Ordering used by `sorted(state["selected_tools"], key=lambda x: x.get("sequence", 0))`. -/
def seqLe (a b : ToolSpec) : Prop := a.sequence ≤ b.sequence

instance : DecidableRel seqLe := fun a b => inferInstanceAs (Decidable (a.sequence ≤ b.sequence))

instance : IsTotal ToolSpec seqLe := ⟨fun a b => Int.le_total a.sequence b.sequence⟩

instance : IsTrans ToolSpec seqLe := ⟨fun _ _ _ h h' => le_trans h h'⟩

/-- Python's `sorted` by sequence key: a stable sort; `List.insertionSort`
places a new element before later elements with an equal key, which is
exactly stability for the already-ordered tail. -/
def sort_by_sequence (l : List ToolSpec) : List ToolSpec := l.insertionSort seqLe

/-- The `for i, tool_spec in enumerate(tools_to_execute)` loop of
`_execute_tools_node`: append one outcome per attempted spec and break as
soon as a failing spec is critical. -/
def exec_loop (env : Env) : List ToolSpec → List MCPToolResult
  | [] => []
  | spec :: rest =>
    let r := run_tool_spec env spec
    if !r.success && spec.critical then [r]
    else r :: exec_loop env rest

/-- Embedding of `_execute_tools_node` (agent.py lines 309-429). -/
def _execute_tools_node (env : Env) (s : AgentState) : AgentState :=
  if s.selected_tools.isEmpty then
    { s with messages := s.messages ++ [mkAI "No external tools needed for this request."],
             step_count := s.step_count + 1 }
  else
    let tools_to_execute := sort_by_sequence s.selected_tools
    let execution_results := exec_loop env tools_to_execute
    { s with tool_results := execution_results,
             messages := s.messages ++
               [mkAI ("Tool Execution Complete\nSuccessful: " ++
                 toString (execution_results.filter (fun r => r.success)).length ++ "/" ++
                 toString tools_to_execute.length ++
                 "\nResults ready for response generation")],
             step_count := s.step_count + 1 }

/-- `state["messages"][0].content`: the original user request. -/
def original_request (s : AgentState) : String :=
  (s.messages.headD (Message.mk Role.user "")).content

/-- Python `str(x)` for an optional string, as in `f"Failed - {result.error}"`. -/
def pyStrOpt : Option String → String
  | none => "None"
  | some s => s

/-- Python `x or d` for an optional string (None and the empty string are falsy). -/
def py_or (o : Option String) (d : String) : String :=
  match o with
  | none => d
  | some s => if s = "" then d else s

/-- Embedding of `_summarize_result` (agent.py lines 607-623). -/
def _summarize_result (r : MCPToolResult) : String :=
  if !r.success then "Failed - " ++ pyStrOpt r.error
  else
    match r.result with
    | none => "Completed successfully"
    | some d =>
      match d.message with
      | some m => m
      | none =>
        match d.resultsLen with
        | some n => "Found " ++ toString n ++ " items"
        | none =>
          match d.contentLen with
          | some n => "Retrieved content (" ++ toString n ++ " characters)"
          | none =>
            match d.outputVal with
            | some _ => "Code executed successfully"
            | none => "Completed successfully"

/-- The bulleted lines appended for the successful tools in `_error_recovery_node`. -/
def successes_text : List MCPToolResult → String
  | [] => ""
  | r :: rest => "\n• " ++ r.tool_name ++ ": " ++ _summarize_result r ++ successes_text rest

/-- The bulleted lines appended for the failed tools in `_error_recovery_node`. -/
def failures_text : List MCPToolResult → String
  | [] => ""
  | r :: rest => "\n• " ++ r.tool_name ++ ": " ++ py_or r.error "Unknown error" ++ failures_text rest

/-- The `error_analysis` string built by `_error_recovery_node`
(agent.py lines 514-554). -/
def error_recovery_text (orig : String) (tool_results : List MCPToolResult) : String :=
  let base := "I encountered some issues while processing your request, but let me provide what information I can."
  let successful_tools := tool_results.filter (fun r => r.success)
  let failed_tools := tool_results.filter (fun r => !r.success)
  let withSucc :=
    if successful_tools.isEmpty then base
    else base ++ "\n\nI successfully completed " ++ toString successful_tools.length ++
      " operations:" ++ successes_text successful_tools
  let withFail :=
    if failed_tools.isEmpty then withSucc
    else withSucc ++ "\n\n" ++ toString failed_tools.length ++
      " operations encountered issues:" ++ failures_text failed_tools
  if tool_results.isEmpty then
    withFail ++ "\n\nRegarding your request: '" ++ orig ++
      "'\n\nI can provide general information and guidance based on my knowledge, even though I couldn't use external tools. What specific aspect would you like me to help with?"
  else
    withFail ++ "\n\nPlease let me know if you'd like me to retry any specific operations or if you need help with something else."

/-- Embedding of `_error_recovery_node` (agent.py lines 514-564).  The node
takes the environment like every other node but reads none of it: the source
contains no completion-service call on this path. -/
def _error_recovery_node (env : Env) (s : AgentState) : AgentState :=
  let error_analysis := error_recovery_text (original_request s) s.tool_results
  { s with final_response := error_analysis,
           messages := s.messages ++ [mkAI error_analysis],
           step_count := s.step_count + 1 }

/-- Embedding of `_generate_response_node` (agent.py lines 431-512).  With a
non-empty outcome list and a failing completion call, the `except` at line
489 calls the missing method `_create_fallback_response`; the resulting
`AttributeError` propagates to the outer `except` (line 503), which calls the
same missing method again, so the `AttributeError` escapes the node. -/
def _generate_response_node (env : Env) (s : AgentState) : Except String AgentState :=
  if s.tool_results.isEmpty then
    let final :=
      match env.respond_no_tools with
      | .returns text => text
      | .throws _ =>
          "I understand you're asking about: " ++ original_request s ++
          "\n\nI encountered some technical difficulties, but I'm here to help. Could you please rephrase your request or ask something specific I can assist with?"
    Except.ok { s with final_response := final,
                       messages := s.messages ++ [mkAI final],
                       step_count := s.step_count + 1 }
  else
    match env.respond_with_tools with
    | .returns text =>
        Except.ok { s with final_response := text,
                           messages := s.messages ++ [mkAI text],
                           step_count := s.step_count + 1 }
    | .throws _ => Except.error fallback_response_attr_error

/-- The `critical_failures` list built by the scan in
`_should_continue_execution` (agent.py lines 584-595): a failed result is
collected when some spec of the current plan has the same tool name and is
marked critical (the inner loop skips name-matching non-critical specs and
breaks at the first name-matching critical one). -/
def critical_failures (s : AgentState) : List MCPToolResult :=
  s.tool_results.filter
    (fun r => !r.success && s.selected_tools.any (fun t => t.tool == r.tool_name && t.critical))

/-- Embedding of `_should_continue_execution` (agent.py lines 566-605); the
returned string is the conditional-edge label ("continue" re-enters the
execute node, "respond" goes to response generation, "error" goes to the
recovery node). -/
def _should_continue_execution (s : AgentState) : String :=
  if s.step_count ≥ s.max_steps then "respond"
  else if s.selected_tools.isEmpty then "respond"
  else if s.tool_results.isEmpty then "continue"
  else if !(critical_failures s).isEmpty then "error"
  else "respond"

/-- Names of the workflow graph's nodes, for run traces. -/
inductive NodeTag
  | analyze
  | execute
  | respond
  | recover
  deriving DecidableEq, Repr

/-- The dictionary returned by `process_request` (agent.py lines 682-701),
extended with the trace of executed nodes for stating transition counts. -/
structure RunResult where
  success : Bool
  final_response : String
  messages : List Message
  tool_results : List MCPToolResult
  steps_taken : Nat
  trace : List NodeTag
  deriving DecidableEq, Repr

/-- The execute/conditional loop of the graph: run `_execute_tools_node`,
re-enter it while the conditional edge says "continue".  The fuel models the
graph engine's recursion guard; it returns the final state together with the
number of execute passes. -/
def exec_phase (env : Env) : Nat → AgentState → Option (AgentState × Nat)
  | 0, _ => none
  | fuel+1, s =>
    let s1 := _execute_tools_node env s
    if _should_continue_execution s1 = "continue" then
      match exec_phase env fuel s1 with
      | some (s2, n) => some (s2, n + 1)
      | none => none
    else some (s1, 1)

/-- The initial state assembled in `process_request` (agent.py lines 640-650).
The default context is a wall-clock session id, irrelevant to every claim. -/
def initial_state (request : String) (max_steps : Nat) : AgentState :=
  { messages := [⟨Role.user, request⟩], current_task := "", selected_tools := [],
    tool_results := [], context := [], step_count := 0, max_steps := max_steps,
    final_response := "" }

/-- Embedding of `process_request` (agent.py lines 625-701): run the graph
from `analyze_request`; an exception escaping a node is caught here and
turned into the error dictionary of lines 692-701. -/
def process_request (env : Env) (request : String) (max_steps : Nat) : RunResult :=
  let s0 := initial_state request max_steps
  let s1 := _analyze_request_node env s0
  match exec_phase env (max_steps + 1) s1 with
  | none =>
      { success := false,
        final_response := "I encountered an error while processing your request: GraphRecursionError",
        messages := [], tool_results := [], steps_taken := 0,
        trace := [NodeTag.analyze] }
  | some (s2, nexec) =>
    let headTrace := NodeTag.analyze :: List.replicate nexec NodeTag.execute
    if _should_continue_execution s2 = "error" then
      let s3 := _error_recovery_node env s2
      match _generate_response_node env s3 with
      | .ok s4 =>
          { success := true, final_response := s4.final_response, messages := s4.messages,
            tool_results := s4.tool_results, steps_taken := s4.step_count,
            trace := headTrace ++ [NodeTag.recover, NodeTag.respond] }
      | .error m =>
          { success := false,
            final_response := "I encountered an error while processing your request: " ++ m,
            messages := [], tool_results := [], steps_taken := 0,
            trace := headTrace ++ [NodeTag.recover, NodeTag.respond] }
    else
      match _generate_response_node env s2 with
      | .ok s4 =>
          { success := true, final_response := s4.final_response, messages := s4.messages,
            tool_results := s4.tool_results, steps_taken := s4.step_count,
            trace := headTrace ++ [NodeTag.respond] }
      | .error m =>
          { success := false,
            final_response := "I encountered an error while processing your request: " ++ m,
            messages := [], tool_results := [], steps_taken := 0,
            trace := headTrace ++ [NodeTag.respond] }

/-!
Definitions written from the specification's words, for the refinement-style
claims.  Each is compared against the definitions translated from the source.
-/

/-- Modelled from the spec's words (section 4.1): the five transition rules
in the stated order; "corresponds to a ToolSpec marked critical" is the
code's correspondence, by tool name. -/
def spec_transition_rules (s : AgentState) : String :=
  if s.step_count ≥ s.max_steps then "respond"
  else if s.selected_tools = [] then "respond"
  else if s.tool_results = [] then "continue"
  else if ∃ r ∈ s.tool_results, r.success = false ∧
      ∃ t ∈ s.selected_tools, t.tool = r.tool_name ∧ t.critical = true then "error"
  else "respond"

/-- Modelled from claim C10's words: a failed outcome is matched back to the
FIRST plan spec whose tool name matches, and the run is routed to recovery
when that first-matching spec is marked critical. -/
def claim_first_match_routing (s : AgentState) : String :=
  if s.step_count ≥ s.max_steps then "respond"
  else if s.selected_tools.isEmpty then "respond"
  else if s.tool_results.isEmpty then "continue"
  else if !(s.tool_results.filter (fun r => !r.success &&
      (match s.selected_tools.find? (fun t => t.tool == r.tool_name) with
       | some t => t.critical
       | none => false))).isEmpty then "error"
  else "respond"

/-- Modelled from claim C9's words: the recovery report is a lead-in line,
the successful tool summaries, the failed tools with their error text, and a
closing prompt inviting the user to request a retry. -/
def claim_recovery_report (tool_results : List MCPToolResult) : String :=
  let base := "I encountered some issues while processing your request, but let me provide what information I can."
  let successful_tools := tool_results.filter (fun r => r.success)
  let failed_tools := tool_results.filter (fun r => !r.success)
  let withSucc :=
    if successful_tools.isEmpty then base
    else base ++ "\n\nI successfully completed " ++ toString successful_tools.length ++
      " operations:" ++ successes_text successful_tools
  let withFail :=
    if failed_tools.isEmpty then withSucc
    else withSucc ++ "\n\n" ++ toString failed_tools.length ++
      " operations encountered issues:" ++ failures_text failed_tools
  withFail ++ "\n\nPlease let me know if you'd like me to retry any specific operations or if you need help with something else."

/-!
Helper lemmas about the execution engine and the transition function.
-/

/-- The position of the first spec in the list that is critical and whose
call fails, if any: exactly the spec at which `exec_loop` breaks. -/
def first_critical_failure (env : Env) : List ToolSpec → Option Nat
  | [] => none
  | sp :: rest =>
    if sp.critical && !(run_tool_spec env sp).success then some 0
    else (first_critical_failure env rest).map (· + 1)

/-!
Concrete sample environments and states used to evaluate the embedding at
specific inputs.
-/

/-- An environment whose completion service succeeds with empty text and
whose tool backend is never reached (connection refused). -/
def env_c2x : Env :=
  { connect := .notOk, plan := .reply .notObject,
    call := fun _ _ => .returns none true 0 none,
    respond_no_tools := .returns "", respond_with_tools := .returns "",
    timestamp := "t" }

/-- An environment with a refused connection and a non-empty completion
reply. -/
def env_c2w : Env :=
  { connect := .notOk, plan := .reply .notObject,
    call := fun _ _ => .returns none true 0 none,
    respond_no_tools := .returns "All done.", respond_with_tools := .returns "All done.",
    timestamp := "t" }

/-- An environment whose tool backend raises on every call. -/
def env_c3w : Env :=
  { connect := .ok, plan := .reply .notObject,
    call := fun _ _ => .raises "connection reset",
    respond_no_tools := .returns "ok", respond_with_tools := .returns "ok",
    timestamp := "t" }

/-- A state about to execute a single critical database query. -/
def st_c3w : AgentState :=
  { messages := [⟨Role.user, "query the database"⟩], current_task := "",
    selected_tools := [⟨"database", [("sql", "select 1")], 1, true, "needed"⟩],
    tool_results := [], context := [], step_count := 1, max_steps := 10,
    final_response := "" }

/-- An environment where the first tool times out and the second raises. -/
def env_c4w : Env :=
  { connect := .ok, plan := .reply .notObject,
    call := fun name _ => if name = "web_search" then .timeout else .raises "boom",
    respond_no_tools := .returns "ok", respond_with_tools := .returns "ok",
    timestamp := "t" }

/-- An environment whose tool backend always succeeds. -/
def env_all_ok : Env :=
  { connect := .ok, plan := .reply .notObject,
    call := fun _ _ => .returns none true 1 none,
    respond_no_tools := .returns "ok", respond_with_tools := .returns "ok",
    timestamp := "t" }

/-- An environment that plans one successful web search and whose completion
service throws during response synthesis. -/
def env_c6 : Env :=
  { connect := .ok,
    plan := .reply (.object (some "Find recent AI news")
      (some [⟨"web_search", [("query", "AI news")], 1, false, "research"⟩]) (some "search then answer")),
    call := fun _ _ => .returns (some ⟨some "done", none, none, none, none⟩) true 1 none,
    respond_no_tools := .returns "ok", respond_with_tools := .throws "Bedrock unavailable",
    timestamp := "t" }

/-- A state holding one successful outcome, about to generate the response. -/
def state_c6 : AgentState :=
  { messages := [⟨Role.user, "find recent AI news"⟩], current_task := "Find recent AI news",
    selected_tools := [⟨"web_search", [("query", "AI news")], 1, false, "research"⟩],
    tool_results := [⟨"web_search", [("query", "AI news")], some ⟨some "done", none, none, none, none⟩, true, 1, "t", none⟩],
    context := [], step_count := 2, max_steps := 10, final_response := "" }

/-- An environment whose tool backend exceeds the per-call timeout on every
call. -/
def env_c7w : Env :=
  { connect := .ok, plan := .reply .notObject,
    call := fun _ _ => .timeout,
    respond_no_tools := .returns "ok", respond_with_tools := .returns "ok",
    timestamp := "t" }

/-- A planned invocation used to exercise the timeout path. -/
def sp_c7w : ToolSpec := ⟨"api_client", [("url", "example.org")], 1, false, "fetch"⟩

/-- An environment whose completion service throws during planning but
answers "OK" during response synthesis. -/
def env_c8x : Env :=
  { connect := .ok, plan := .throws "service down",
    call := fun _ _ => .returns none true 0 none,
    respond_no_tools := .returns "OK", respond_with_tools := .returns "OK",
    timestamp := "t" }

/-- An environment whose completion service throws both during planning and
during response synthesis. -/
def env_c8w : Env :=
  { connect := .ok, plan := .throws "service down",
    call := fun _ _ => .returns none true 0 none,
    respond_no_tools := .throws "service down", respond_with_tools := .throws "service down",
    timestamp := "t" }

/-- An environment whose completion service always succeeds, used to show
the recovery path ignores it. -/
def env_c9w : Env :=
  { connect := .ok, plan := .reply .notObject,
    call := fun _ _ => .returns none true 1 none,
    respond_no_tools := .returns "llm text", respond_with_tools := .returns "llm text",
    timestamp := "t" }

/-- A state entering recovery with one failed outcome recorded. -/
def state_c9w : AgentState :=
  { messages := [⟨Role.user, "query the database"⟩], current_task := "",
    selected_tools := [⟨"database", [("sql", "select 1")], 1, true, "needed"⟩],
    tool_results := [⟨"database", [("sql", "select 1")], none, false, 1, "t", some "connection reset"⟩],
    context := [], step_count := 2, max_steps := 10, final_response := "" }

/-- A state whose plan holds a non-critical and a critical spec sharing the
tool name "search", with one failed outcome recorded for the non-critical
one. -/
def state_c10 : AgentState :=
  { messages := [⟨Role.user, "look this up"⟩], current_task := "",
    selected_tools :=
      [⟨"search", [("q", "first")], 1, false, "primary"⟩,
       ⟨"search", [("q", "second")], 2, true, "backup"⟩],
    tool_results := [⟨"search", [("q", "first")], none, false, 1, "t", some "no results"⟩],
    context := [], step_count := 2, max_steps := 10, final_response := "" }

theorem run_tool_spec_tool_name (env : Env) (sp : ToolSpec) :
    (run_tool_spec env sp).tool_name = sp.tool := by
  unfold run_tool_spec
  cases env.call sp.tool sp.parameters <;> rfl

theorem exec_loop_ne_nil (env : Env) (l : List ToolSpec) (h : l ≠ []) :
    exec_loop env l ≠ [] := by
  cases l with
  | nil => exact absurd rfl h
  | cons sp rest =>
    simp only [exec_loop]
    split <;> simp

theorem sort_by_sequence_length (l : List ToolSpec) :
    (sort_by_sequence l).length = l.length :=
  List.length_insertionSort seqLe l

theorem sort_by_sequence_ne_nil {l : List ToolSpec} (h : l ≠ []) :
    sort_by_sequence l ≠ [] := by
  intro hc
  apply h
  have := sort_by_sequence_length l
  rw [hc] at this
  exact List.length_eq_zero.mp this.symm

theorem mem_sort_by_sequence {l : List ToolSpec} {sp : ToolSpec} :
    sp ∈ sort_by_sequence l ↔ sp ∈ l :=
  List.mem_insertionSort seqLe

theorem exec_loop_eq_take (env : Env) :
    ∀ l : List ToolSpec, ∃ n, exec_loop env l = (l.take n).map (run_tool_spec env)
  | [] => ⟨0, rfl⟩
  | sp :: rest => by
    obtain ⟨n, hn⟩ := exec_loop_eq_take env rest
    by_cases h : (!(run_tool_spec env sp).success && sp.critical) = true
    · exact ⟨1, by simp [exec_loop, h]⟩
    · exact ⟨n + 1, by simp [exec_loop, h, hn]⟩

theorem exec_loop_all_noncritical (env : Env) :
    ∀ l : List ToolSpec, (∀ sp ∈ l, sp.critical = false) →
      exec_loop env l = l.map (run_tool_spec env)
  | [], _ => rfl
  | sp :: rest, h => by
    have hsp : sp.critical = false := h sp (List.mem_cons_self sp rest)
    have ih := exec_loop_all_noncritical env rest (fun x hx => h x (List.mem_cons_of_mem sp hx))
    simp [exec_loop, hsp, ih]

theorem first_critical_failure_lt (env : Env) :
    ∀ (l : List ToolSpec) (i : Nat), first_critical_failure env l = some i → i < l.length
  | [], i, h => by simp [first_critical_failure] at h
  | sp :: rest, i, h => by
    simp only [first_critical_failure] at h
    split at h
    · simp at h
      simp only [List.length_cons]
      omega
    · cases hrest : first_critical_failure env rest with
      | none => rw [hrest] at h; simp at h
      | some j =>
        rw [hrest] at h
        simp at h
        have := first_critical_failure_lt env rest j hrest
        simp only [List.length_cons]
        omega

theorem first_critical_failure_spec (env : Env) :
    ∀ (l : List ToolSpec) (i : Nat), first_critical_failure env l = some i →
      ∃ sp, l.get? i = some sp ∧ sp.critical = true ∧ (run_tool_spec env sp).success = false
  | [], i, h => by simp [first_critical_failure] at h
  | sp :: rest, i, h => by
    simp only [first_critical_failure] at h
    split at h
    · rename_i hcond
      simp at h hcond
      subst h
      exact ⟨sp, rfl, hcond.1, by simpa using hcond.2⟩
    · cases hrest : first_critical_failure env rest with
      | none => rw [hrest] at h; simp at h
      | some j =>
        rw [hrest] at h
        simp at h
        obtain ⟨sp', hget, hcrit, hfail⟩ := first_critical_failure_spec env rest j hrest
        exact ⟨sp', by rw [← h]; simpa using hget, hcrit, hfail⟩

theorem exec_loop_stops_at_first_critical (env : Env) :
    ∀ (l : List ToolSpec) (i : Nat), first_critical_failure env l = some i →
      exec_loop env l = (l.take (i + 1)).map (run_tool_spec env)
  | [], i, h => by simp [first_critical_failure] at h
  | sp :: rest, i, h => by
    simp only [first_critical_failure] at h
    split at h
    · rename_i hcond
      simp at h hcond
      subst h
      have hbreak : (!(run_tool_spec env sp).success && sp.critical) = true := by
        simp [hcond.1, hcond.2]
      simp [exec_loop, hbreak]
    · rename_i hcond
      cases hrest : first_critical_failure env rest with
      | none => rw [hrest] at h; simp at h
      | some j =>
        rw [hrest] at h
        simp at h
        have hnobreak : (!(run_tool_spec env sp).success && sp.critical) = false := by
          rw [Bool.and_comm]
          simpa using hcond
        have ih := exec_loop_stops_at_first_critical env rest j hrest
        subst h
        simp [exec_loop, hnobreak, ih]

theorem filter_seq_orderedInsert (k : Int) (a : ToolSpec) :
    ∀ l : List ToolSpec,
      (List.orderedInsert seqLe a l).filter (fun sp => sp.sequence == k) =
        if a.sequence == k then a :: l.filter (fun sp => sp.sequence == k)
        else l.filter (fun sp => sp.sequence == k)
  | [] => by
    by_cases h : (a.sequence == k) = true <;> simp [List.orderedInsert, h]
  | b :: t => by
    by_cases hle : seqLe a b
    · rw [List.orderedInsert_of_le seqLe t hle]
      by_cases h : (a.sequence == k) = true <;> simp [List.filter_cons, h]
    · have hstep : List.orderedInsert seqLe a (b :: t) = b :: List.orderedInsert seqLe a t := by
        simp [List.orderedInsert, hle]
      have hlt : b.sequence < a.sequence := by
        simp [seqLe] at hle
        omega
      rw [hstep, List.filter_cons, filter_seq_orderedInsert k a t]
      by_cases ha : (a.sequence == k) = true
      · have hb : (b.sequence == k) = false := by
          simp at ha ⊢
          omega
        simp [ha, hb, List.filter_cons]
      · have ha' : (a.sequence == k) = false := by simpa using ha
        by_cases hb : (b.sequence == k) = true <;>
          simp [ha', hb, List.filter_cons]

theorem filter_seq_sort (k : Int) :
    ∀ l : List ToolSpec,
      (sort_by_sequence l).filter (fun sp => sp.sequence == k) =
        l.filter (fun sp => sp.sequence == k)
  | [] => rfl
  | a :: t => by
    have ih := filter_seq_sort k t
    simp only [sort_by_sequence, List.insertionSort] at ih ⊢
    rw [filter_seq_orderedInsert k a (List.insertionSort seqLe t)]
    by_cases h : (a.sequence == k) = true <;> simp [List.filter_cons, h, ih]

theorem sort_by_sequence_sorted (l : List ToolSpec) :
    (sort_by_sequence l).Sorted seqLe :=
  List.sorted_insertionSort seqLe l

theorem critical_failures_ne_nil_iff (s : AgentState) :
    ((critical_failures s).isEmpty = false) ↔
      ∃ r ∈ s.tool_results, r.success = false ∧
        ∃ t ∈ s.selected_tools, t.tool = r.tool_name ∧ t.critical = true := by
  rw [Bool.eq_false_iff, ne_eq, List.isEmpty_iff]
  unfold critical_failures
  rw [List.filter_eq_nil_iff]
  push_neg
  constructor
  · rintro ⟨r, hr, hp⟩
    simp only [Bool.and_eq_true, Bool.not_eq_true', List.any_eq_true, beq_iff_eq] at hp
    obtain ⟨hfail, t, ht, hname, hcrit⟩ := hp
    exact ⟨r, hr, hfail, t, ht, hname, hcrit⟩
  · rintro ⟨r, hr, hfail, t, ht, hname, hcrit⟩
    refine ⟨r, hr, ?_⟩
    simp only [Bool.and_eq_true, Bool.not_eq_true', List.any_eq_true, beq_iff_eq]
    exact ⟨hfail, t, ht, hname, hcrit⟩

theorem should_continue_eq_error_iff (s : AgentState)
    (h1 : ¬ s.step_count ≥ s.max_steps) (h2 : s.selected_tools ≠ [])
    (h3 : s.tool_results ≠ []) :
    (_should_continue_execution s = "error") ↔ ((critical_failures s).isEmpty = false) := by
  unfold _should_continue_execution
  cases hemp : (critical_failures s).isEmpty <;>
    simp [h1, h2, h3, List.isEmpty_iff, hemp]

theorem error_route_tool_results_ne_nil (s : AgentState)
    (h : _should_continue_execution s = "error") : s.tool_results ≠ [] := by
  intro hnil
  unfold _should_continue_execution at h
  rw [hnil] at h
  split_ifs at h <;> simp_all

theorem execute_keeps_selected_tools (env : Env) (s : AgentState) :
    (_execute_tools_node env s).selected_tools = s.selected_tools := by
  unfold _execute_tools_node
  split <;> rfl

theorem execute_results_ne_nil (env : Env) (s : AgentState)
    (h : s.selected_tools ≠ []) : (_execute_tools_node env s).tool_results ≠ [] := by
  unfold _execute_tools_node
  rw [if_neg (by simpa [List.isEmpty_iff] using h)]
  exact exec_loop_ne_nil env _ (sort_by_sequence_ne_nil h)

theorem should_continue_after_execute (env : Env) (s : AgentState) :
    _should_continue_execution (_execute_tools_node env s) ≠ "continue" := by
  by_cases h : s.selected_tools = []
  · have hsel : (_execute_tools_node env s).selected_tools = [] := by
      rw [execute_keeps_selected_tools, h]
    unfold _should_continue_execution
    rw [hsel]
    split
    · simp
    · simp
  · have hres := execute_results_ne_nil env s h
    unfold _should_continue_execution
    split
    · simp
    · split
      · simp
      · rw [if_neg (by simpa [List.isEmpty_iff] using hres)]
        split <;> simp

theorem exec_phase_eq (env : Env) (fuel : Nat) (s : AgentState) :
    exec_phase env (fuel + 1) s = some (_execute_tools_node env s, 1) := by
  simp [exec_phase, should_continue_after_execute env s]

theorem analyze_step_count (env : Env) (s : AgentState) :
    (_analyze_request_node env s).step_count = s.step_count + 1 := by
  unfold _analyze_request_node
  cases env.connect with
  | ok => cases env.plan <;> rfl
  | notOk => rfl
  | raises m => rfl

theorem execute_step_count (env : Env) (s : AgentState) :
    (_execute_tools_node env s).step_count = s.step_count + 1 := by
  unfold _execute_tools_node
  split <;> rfl

theorem recover_step_count (env : Env) (s : AgentState) :
    (_error_recovery_node env s).step_count = s.step_count + 1 := rfl

theorem generate_step_count (env : Env) (s s' : AgentState)
    (h : _generate_response_node env s = Except.ok s') :
    s'.step_count = s.step_count + 1 := by
  unfold _generate_response_node at h
  split at h
  · simp only [Except.ok.injEq] at h
    rw [← h]
  · cases hw : env.respond_with_tools <;> rw [hw] at h <;> simp at h
    rw [← h]

theorem generate_error_eq (env : Env) (s : AgentState) (m : String)
    (h : _generate_response_node env s = Except.error m) :
    m = fallback_response_attr_error := by
  unfold _generate_response_node at h
  split at h
  · simp at h
  · cases hw : env.respond_with_tools <;> rw [hw] at h <;> simp at h
    exact h.symm

theorem append_ne_empty_left (a b : String) (ha : a ≠ "") : a ++ b ≠ "" := by
  intro h
  have hlen := congrArg String.length h
  rw [String.length_append] at hlen
  apply ha
  have : a.length = 0 := by
    have : ("" : String).length = 0 := rfl
    omega
  cases a with
  | mk data =>
    cases data with
    | nil => rfl
    | cons c cs => simp [String.length] at this

/-!
Claim theorems.
-/

/-- C1: after every Execute pass, `_should_continue_execution` chooses the
next node by exactly the five rules of the specification, tested in order:
budget reached, empty plan, no outcomes yet, critical failure, else respond;
a failed outcome corresponds to a ToolSpec by tool name. -/
theorem c1_transition_rule_order (s : AgentState) :
    _should_continue_execution s = spec_transition_rules s := by
  unfold _should_continue_execution spec_transition_rules
  by_cases h1 : s.step_count ≥ s.max_steps
  · simp [h1]
  · by_cases h2 : s.selected_tools = []
    · simp [h1, h2]
    · by_cases h3 : s.tool_results = []
      · simp [h1, h2, h3, List.isEmpty_iff]
      · have hiff := critical_failures_ne_nil_iff s
        by_cases h4 : (critical_failures s).isEmpty
        · have hno : ¬ ∃ r ∈ s.tool_results, r.success = false ∧
              ∃ t ∈ s.selected_tools, t.tool = r.tool_name ∧ t.critical = true := by
            rw [← hiff]
            simp [h4]
          simp [h1, h2, h3, h4, hno, List.isEmpty_iff]
        · have h4f : (critical_failures s).isEmpty = false := by simpa using h4
          simp [h1, h2, h3, h4f, hiff.mp h4f, List.isEmpty_iff]

/-- C4: when no spec of the plan is critical, the engine attempts every
spec — one outcome per spec, whatever each call does — so the outcome count
equals the plan count. -/
theorem c4_noncritical_plan_runs_every_spec (env : Env) (plan : List ToolSpec)
    (h : ∀ sp ∈ plan, sp.critical = false) :
    exec_loop env (sort_by_sequence plan) = (sort_by_sequence plan).map (run_tool_spec env) ∧
    (exec_loop env (sort_by_sequence plan)).length = plan.length := by
  have hall : ∀ sp ∈ sort_by_sequence plan, sp.critical = false :=
    fun sp hm => h sp (mem_sort_by_sequence.mp hm)
  have heq := exec_loop_all_noncritical env _ hall
  exact ⟨heq, by rw [heq, List.length_map, sort_by_sequence_length]⟩

/-- C4 witness: a two-spec non-critical plan where one call times out and
the other raises still records exactly two outcomes. -/
theorem c4_witness :
    (∀ sp ∈ [(⟨"web_search", [("q", "x")], 2, false, "a"⟩ : ToolSpec),
        ⟨"database", [("sql", "y")], 1, false, "b"⟩], sp.critical = false) ∧
    (exec_loop env_c4w (sort_by_sequence
        [⟨"web_search", [("q", "x")], 2, false, "a"⟩, ⟨"database", [("sql", "y")], 1, false, "b"⟩]) =
      (sort_by_sequence
        [⟨"web_search", [("q", "x")], 2, false, "a"⟩, ⟨"database", [("sql", "y")], 1, false, "b"⟩]).map
        (run_tool_spec env_c4w) ∧
     (exec_loop env_c4w (sort_by_sequence
        [⟨"web_search", [("q", "x")], 2, false, "a"⟩, ⟨"database", [("sql", "y")], 1, false, "b"⟩])).length =
      ([(⟨"web_search", [("q", "x")], 2, false, "a"⟩ : ToolSpec),
        ⟨"database", [("sql", "y")], 1, false, "b"⟩] : List ToolSpec).length) :=
  ⟨by decide, c4_noncritical_plan_runs_every_spec env_c4w _ (by decide)⟩

/-- C5: specs are executed in ascending sequence-index order with ties kept
in original list order (the sort is a stable sort), and the outcome list is
the image of a prefix of that sorted plan; in particular sequences supplied
as 3,1,2 yield outcomes for 1, then 2, then 3. -/
theorem c5_outcomes_follow_stable_sequence_order (env : Env) (plan : List ToolSpec) :
    (sort_by_sequence plan).Sorted seqLe ∧
    (∀ k : Int, (sort_by_sequence plan).filter (fun sp => sp.sequence == k) =
      plan.filter (fun sp => sp.sequence == k)) ∧
    (∃ n, exec_loop env (sort_by_sequence plan) =
      ((sort_by_sequence plan).take n).map (run_tool_spec env)) ∧
    (exec_loop env_all_ok (sort_by_sequence
        [⟨"alpha", [], 3, false, ""⟩, ⟨"beta", [], 1, false, ""⟩, ⟨"gamma", [], 2, false, ""⟩])).map
      (fun r => r.tool_name) = ["beta", "gamma", "alpha"] :=
  ⟨sort_by_sequence_sorted plan, fun k => filter_seq_sort k plan,
    exec_loop_eq_take env _, by decide⟩

/-- C7: a call that exceeds the engine's fixed 120-unit timeout is recorded
as a failed outcome whose error text contains "timed out" and whose elapsed
time equals the timeout bound. -/
theorem c7_timeout_records_synthetic_outcome (env : Env) (sp : ToolSpec)
    (h : env.call sp.tool sp.parameters = CallBehavior.timeout) :
    (run_tool_spec env sp).success = false ∧
    (run_tool_spec env sp).execution_time = 120 ∧
    (run_tool_spec env sp).error = some "Tool execution timed out" ∧
    ∃ pre post, pyStrOpt (run_tool_spec env sp).error = pre ++ "timed out" ++ post := by
  unfold run_tool_spec
  rw [h]
  exact ⟨rfl, rfl, rfl, "Tool execution ", "", rfl⟩

/-- C7 witness: a concrete timed-out api call. -/
theorem c7_witness :
    env_c7w.call sp_c7w.tool sp_c7w.parameters = CallBehavior.timeout ∧
    ((run_tool_spec env_c7w sp_c7w).success = false ∧
     (run_tool_spec env_c7w sp_c7w).execution_time = 120 ∧
     (run_tool_spec env_c7w sp_c7w).error = some "Tool execution timed out" ∧
     ∃ pre post, pyStrOpt (run_tool_spec env_c7w sp_c7w).error = pre ++ "timed out" ++ post) :=
  ⟨rfl, c7_timeout_records_synthetic_outcome env_c7w sp_c7w rfl⟩

/-- C10 counterexample: with a plan holding a non-critical and a critical
spec that share a tool name and a failed outcome from the non-critical one,
the code routes to recovery, while matching each failed outcome to the FIRST
name-matching spec (as the claim words it) would route to respond. -/
theorem c10_counterexample :
    _should_continue_execution state_c10 = "error" ∧
    claim_first_match_routing state_c10 = "respond" := ⟨by decide, by decide⟩

/-- C10 (amended): the critical-failure check matches failed outcomes to
plan specs by tool name only, routing to recovery exactly when ANY spec with
a matching name is marked critical; hence a failure of a non-critical spec
alone routes to Recover whenever a critical spec shares its tool name. -/
theorem c10_name_based_critical_matching (s : AgentState)
    (h1 : ¬ s.step_count ≥ s.max_steps) (h2 : s.selected_tools ≠ [])
    (h3 : s.tool_results ≠ []) :
    ((_should_continue_execution s = "error") ↔
      ∃ r ∈ s.tool_results, r.success = false ∧
        ∃ t ∈ s.selected_tools, t.tool = r.tool_name ∧ t.critical = true) ∧
    (∀ r ∈ s.tool_results, r.success = false →
      ∀ t ∈ s.selected_tools, t.tool = r.tool_name → t.critical = true →
        _should_continue_execution s = "error") := by
  have hiff := (should_continue_eq_error_iff s h1 h2 h3).trans (critical_failures_ne_nil_iff s)
  refine ⟨hiff, ?_⟩
  intro r hr hfail t ht hname hcrit
  exact hiff.mpr ⟨r, hr, hfail, t, ht, hname, hcrit⟩

/-- C10 witness: the amended characterisation evaluated at the concrete
shared-name state. -/
theorem c10_witness :
    (¬ state_c10.step_count ≥ state_c10.max_steps ∧ state_c10.selected_tools ≠ [] ∧
      state_c10.tool_results ≠ []) ∧
    (((_should_continue_execution state_c10 = "error") ↔
      ∃ r ∈ state_c10.tool_results, r.success = false ∧
        ∃ t ∈ state_c10.selected_tools, t.tool = r.tool_name ∧ t.critical = true) ∧
     (∀ r ∈ state_c10.tool_results, r.success = false →
      ∀ t ∈ state_c10.selected_tools, t.tool = r.tool_name → t.critical = true →
        _should_continue_execution state_c10 = "error")) :=
  ⟨⟨by decide, by decide, by decide⟩,
    c10_name_based_critical_matching state_c10 (by decide) (by decide) (by decide)⟩

/-- C6: evaluating the response-generation node at a state with a non-empty
outcome list while the completion service throws: the `except` handlers call
the missing `_create_fallback_response`, so no templated summary is built and
the AttributeError escapes the node; the whole run then surfaces it as the
outer error dictionary instead of a degraded answer. -/
theorem c6_missing_fallback_raises :
    _generate_response_node env_c6 state_c6 = Except.error fallback_response_attr_error ∧
    (process_request env_c6 "find recent AI news" 10).success = false ∧
    (process_request env_c6 "find recent AI news" 10).final_response =
      "I encountered an error while processing your request: " ++ fallback_response_attr_error :=
  ⟨rfl, by decide, by decide⟩

/-- C9 counterexample: on an empty outcome list the recovery text ends with
the clarification paragraph, not with the retry-inviting closing prompt the
claim prescribes for every outcome list. -/
theorem c9_counterexample :
    error_recovery_text "list my files" [] ≠ claim_recovery_report [] := by decide

/-- C9 (amended): the recovery node never consults the completion service
(its output is independent of the environment), and for every non-empty
outcome list its report is exactly the claim's template: lead-in, successful
tool summaries, failed tools with error text, and the retry-inviting close;
for an empty outcome list the closing instead asks what to help with. -/
theorem c9_recovery_is_templated :
    (∀ e1 e2 : Env, ∀ s : AgentState, _error_recovery_node e1 s = _error_recovery_node e2 s) ∧
    (∀ (env : Env) (s : AgentState), s.tool_results ≠ [] →
      (_error_recovery_node env s).final_response = claim_recovery_report s.tool_results) := by
  constructor
  · intro e1 e2 s
    rfl
  · intro env s h
    show error_recovery_text (original_request s) s.tool_results = _
    unfold error_recovery_text claim_recovery_report
    rw [if_neg (by simpa [List.isEmpty_iff] using h)]

/-- C9 witness: the amended template equality at a concrete failed outcome. -/
theorem c9_witness :
    state_c9w.tool_results ≠ [] ∧
    (_error_recovery_node env_c9w state_c9w).final_response =
      claim_recovery_report state_c9w.tool_results :=
  ⟨by decide, c9_recovery_is_templated.2 env_c9w state_c9w (by decide)⟩

theorem execute_keeps_max_steps (env : Env) (s : AgentState) :
    (_execute_tools_node env s).max_steps = s.max_steps := by
  unfold _execute_tools_node
  split <;> rfl

/-- C3: when the sorted plan has a critical spec whose call fails, the
engine stops at the first such spec: the outcome list is exactly the image
of the sorted plan up to and including that spec (so its length is that
index plus one, and untried specs stay absent), and — the step budget not
being exhausted — the next transition is to recovery, not to respond. -/
theorem c3_critical_failure_stops_engine (env : Env) (st : AgentState) (i : Nat)
    (hfirst : first_critical_failure env (sort_by_sequence st.selected_tools) = some i)
    (hbudget : st.step_count + 1 < st.max_steps) :
    (_execute_tools_node env st).tool_results.length = i + 1 ∧
    (_execute_tools_node env st).tool_results =
      ((sort_by_sequence st.selected_tools).take (i + 1)).map (run_tool_spec env) ∧
    _should_continue_execution (_execute_tools_node env st) = "error" := by
  have hne : st.selected_tools ≠ [] := by
    intro h0
    rw [h0] at hfirst
    simp [sort_by_sequence, List.insertionSort, first_critical_failure] at hfirst
  have hilt : i < (sort_by_sequence st.selected_tools).length :=
    first_critical_failure_lt env _ i hfirst
  have hexec : (_execute_tools_node env st).tool_results =
      ((sort_by_sequence st.selected_tools).take (i + 1)).map (run_tool_spec env) := by
    unfold _execute_tools_node
    rw [if_neg (by simpa [List.isEmpty_iff] using hne)]
    exact exec_loop_stops_at_first_critical env _ i hfirst
  have hlen : (_execute_tools_node env st).tool_results.length = i + 1 := by
    rw [hexec, List.length_map, List.length_take]
    omega
  refine ⟨hlen, hexec, ?_⟩
  obtain ⟨sp, hget, hcrit, hfail⟩ := first_critical_failure_spec env _ i hfirst
  have hsp_mem : sp ∈ st.selected_tools :=
    mem_sort_by_sequence.mp (List.get?_mem hget)
  have hr_mem : run_tool_spec env sp ∈ (_execute_tools_node env st).tool_results := by
    rw [hexec]
    apply List.mem_map_of_mem
    exact List.get?_mem (by rw [List.get?_take (Nat.lt_succ_self i)]; exact hget)
  have hstep := execute_step_count env st
  have hsel := execute_keeps_selected_tools env st
  rw [should_continue_eq_error_iff _ (by rw [hstep, execute_keeps_max_steps]; omega)
      (by rw [hsel]; exact hne)
      (by intro h0; rw [h0] at hlen; simp at hlen),
    critical_failures_ne_nil_iff]
  refine ⟨run_tool_spec env sp, hr_mem, hfail, sp, ?_, ?_, hcrit⟩
  · rw [hsel]
    exact hsp_mem
  · exact (run_tool_spec_tool_name env sp).symm

/-- C3 witness: one critical database spec whose call raises. -/
theorem c3_witness :
    (first_critical_failure env_c3w (sort_by_sequence st_c3w.selected_tools) = some 0 ∧
      st_c3w.step_count + 1 < st_c3w.max_steps) ∧
    ((_execute_tools_node env_c3w st_c3w).tool_results.length = 0 + 1 ∧
     (_execute_tools_node env_c3w st_c3w).tool_results =
       ((sort_by_sequence st_c3w.selected_tools).take (0 + 1)).map (run_tool_spec env_c3w) ∧
     _should_continue_execution (_execute_tools_node env_c3w st_c3w) = "error") :=
  ⟨⟨by decide, by decide⟩, c3_critical_failure_stops_engine env_c3w st_c3w 0 (by decide) (by decide)⟩

theorem recover_keeps_tool_results (env : Env) (s : AgentState) :
    (_error_recovery_node env s).tool_results = s.tool_results := rfl

theorem analyze_keeps_tool_results (env : Env) (s : AgentState) :
    (_analyze_request_node env s).tool_results = s.tool_results := by
  unfold _analyze_request_node
  cases env.connect with
  | ok => cases env.plan <;> rfl
  | notOk => rfl
  | raises m => rfl

theorem execute_empty_plan (env : Env) (s : AgentState) (h : s.selected_tools = []) :
    (_execute_tools_node env s).tool_results = s.tool_results := by
  unfold _execute_tools_node
  rw [if_pos (by simp [h])]

theorem generate_ok_with_tools (env : Env) (s s4 : AgentState) (h : s.tool_results ≠ [])
    (hgen : _generate_response_node env s = Except.ok s4) :
    ∃ t, env.respond_with_tools = CompletionBehavior.returns t ∧ s4.final_response = t := by
  unfold _generate_response_node at hgen
  rw [if_neg (by simpa [List.isEmpty_iff] using h)] at hgen
  cases hw : env.respond_with_tools <;> rw [hw] at hgen <;> simp at hgen
  exact ⟨_, rfl, by rw [← hgen]⟩

theorem generate_no_tools_final (env : Env) (s s4 : AgentState) (h : s.tool_results = [])
    (hgen : _generate_response_node env s = Except.ok s4) :
    (∃ t, env.respond_no_tools = CompletionBehavior.returns t ∧ s4.final_response = t) ∨
    ((∃ m, env.respond_no_tools = CompletionBehavior.throws m) ∧
      s4.final_response = "I understand you're asking about: " ++ original_request s ++
        "\n\nI encountered some technical difficulties, but I'm here to help. Could you please rephrase your request or ask something specific I can assist with?") := by
  unfold _generate_response_node at hgen
  rw [if_pos (by simp [h])] at hgen
  cases hw : env.respond_no_tools <;> rw [hw] at hgen <;> simp at hgen
  · exact Or.inl ⟨_, rfl, by rw [← hgen]⟩
  · exact Or.inr ⟨⟨_, rfl⟩, by rw [← hgen]⟩

theorem generate_no_tools_ok (env : Env) (s : AgentState) (h : s.tool_results = []) :
    ∃ s4, _generate_response_node env s = Except.ok s4 := by
  unfold _generate_response_node
  rw [if_pos (by simp [h])]
  exact ⟨_, rfl⟩

theorem generate_keeps_tool_results (env : Env) (s s4 : AgentState)
    (hgen : _generate_response_node env s = Except.ok s4) :
    s4.tool_results = s.tool_results := by
  unfold _generate_response_node at hgen
  split at hgen
  · simp at hgen
    rw [← hgen]
  · cases hw : env.respond_with_tools <;> rw [hw] at hgen <;> simp at hgen
    rw [← hgen]

theorem analyze_messages_append (env : Env) (s : AgentState) :
    ∃ ms, (_analyze_request_node env s).messages = s.messages ++ ms := by
  unfold _analyze_request_node
  cases env.connect with
  | ok => cases env.plan <;> exact ⟨_, rfl⟩
  | notOk => exact ⟨_, rfl⟩
  | raises m => exact ⟨_, rfl⟩

theorem execute_messages_append (env : Env) (s : AgentState) :
    ∃ ms, (_execute_tools_node env s).messages = s.messages ++ ms := by
  unfold _execute_tools_node
  split <;> exact ⟨_, rfl⟩

theorem process_request_eq (env : Env) (request : String) (B : Nat) :
    process_request env request B =
      (if _should_continue_execution
          (_execute_tools_node env (_analyze_request_node env (initial_state request B))) = "error" then
        match _generate_response_node env
            (_error_recovery_node env
              (_execute_tools_node env (_analyze_request_node env (initial_state request B)))) with
        | Except.ok s4 =>
            { success := true, final_response := s4.final_response, messages := s4.messages,
              tool_results := s4.tool_results, steps_taken := s4.step_count,
              trace := [NodeTag.analyze, NodeTag.execute, NodeTag.recover, NodeTag.respond] }
        | Except.error m =>
            { success := false,
              final_response := "I encountered an error while processing your request: " ++ m,
              messages := [], tool_results := [], steps_taken := 0,
              trace := [NodeTag.analyze, NodeTag.execute, NodeTag.recover, NodeTag.respond] }
      else
        match _generate_response_node env
            (_execute_tools_node env (_analyze_request_node env (initial_state request B))) with
        | Except.ok s4 =>
            { success := true, final_response := s4.final_response, messages := s4.messages,
              tool_results := s4.tool_results, steps_taken := s4.step_count,
              trace := [NodeTag.analyze, NodeTag.execute, NodeTag.respond] }
        | Except.error m =>
            { success := false,
              final_response := "I encountered an error while processing your request: " ++ m,
              messages := [], tool_results := [], steps_taken := 0,
              trace := [NodeTag.analyze, NodeTag.execute, NodeTag.respond] }) := by
  simp only [process_request]
  rw [exec_phase_eq]
  rfl

/-- C2 counterexample: with step budget 1 the run still executes three node
transitions (analyze, execute, respond), exceeding the claimed bound of at
most B transitions; and when the completion service succeeds with empty
text, the final answer is empty. -/
theorem c2_counterexample :
    (process_request env_c2x "hi" 1).trace.length = 3 ∧
    ¬ ((process_request env_c2x "hi" 1).trace.length ≤ 1) ∧
    (process_request env_c2x "hi" 1).final_response = "" :=
  ⟨by decide, by decide, by decide⟩

/-- C2 (amended): every node increments the step counter by exactly one on
every path; for every step budget B ≥ 1 the run terminates within at most
B + 3 node transitions; and the run yields a non-empty final answer
provided the completion service returns non-empty text whenever it
succeeds. -/
theorem c2_budget_bounds_run (env : Env) (request : String) (B : Nat) (hB : 1 ≤ B)
    (hnt : ∀ t, env.respond_no_tools = CompletionBehavior.returns t → t ≠ "")
    (hwt : ∀ t, env.respond_with_tools = CompletionBehavior.returns t → t ≠ "") :
    (process_request env request B).trace.length ≤ B + 3 ∧
    (process_request env request B).final_response ≠ "" ∧
    (∀ s, (_analyze_request_node env s).step_count = s.step_count + 1) ∧
    (∀ s, (_execute_tools_node env s).step_count = s.step_count + 1) ∧
    (∀ s, (_error_recovery_node env s).step_count = s.step_count + 1) ∧
    (∀ s s2, _generate_response_node env s = Except.ok s2 → s2.step_count = s.step_count + 1) := by
  refine ⟨?_, ?_, analyze_step_count env, execute_step_count env, recover_step_count env,
    generate_step_count env⟩
  · rw [process_request_eq]
    split
    · cases hgen : _generate_response_node env
          (_error_recovery_node env
            (_execute_tools_node env (_analyze_request_node env (initial_state request B)))) with
      | ok s4 => show (4 : Nat) ≤ B + 3; omega
      | error m => show (4 : Nat) ≤ B + 3; omega
    · cases hgen : _generate_response_node env
          (_execute_tools_node env (_analyze_request_node env (initial_state request B))) with
      | ok s4 => show (3 : Nat) ≤ B + 3; omega
      | error m => show (3 : Nat) ≤ B + 3; omega
  · rw [process_request_eq]
    split
    · rename_i herr
      have hres : (_error_recovery_node env
          (_execute_tools_node env (_analyze_request_node env (initial_state request B)))).tool_results ≠ [] := by
        rw [recover_keeps_tool_results]
        exact error_route_tool_results_ne_nil _ herr
      cases hgen : _generate_response_node env
          (_error_recovery_node env
            (_execute_tools_node env (_analyze_request_node env (initial_state request B)))) with
      | ok s4 =>
        obtain ⟨t, hw, hfin⟩ := generate_ok_with_tools env _ s4 hres hgen
        show s4.final_response ≠ ""
        rw [hfin]
        exact hwt t hw
      | error m =>
        show ("I encountered an error while processing your request: " ++ m) ≠ ""
        exact append_ne_empty_left _ _ (by decide)
    · by_cases hres : (_execute_tools_node env
          (_analyze_request_node env (initial_state request B))).tool_results = []
      · obtain ⟨s4, hgen⟩ := generate_no_tools_ok env _ hres
        rw [hgen]
        show s4.final_response ≠ ""
        rcases generate_no_tools_final env _ s4 hres hgen with ⟨t, hw, hfin⟩ | ⟨⟨m, hw⟩, hfin⟩
        · rw [hfin]
          exact hnt t hw
        · rw [hfin]
          exact append_ne_empty_left _ _ (append_ne_empty_left _ _ (by decide))
      · cases hgen : _generate_response_node env
            (_execute_tools_node env (_analyze_request_node env (initial_state request B))) with
        | ok s4 =>
          obtain ⟨t, hw, hfin⟩ := generate_ok_with_tools env _ s4 hres hgen
          show s4.final_response ≠ ""
          rw [hfin]
          exact hwt t hw
        | error m =>
          show ("I encountered an error while processing your request: " ++ m) ≠ ""
          exact append_ne_empty_left _ _ (by decide)

/-- C2 witness: the amended bound evaluated with budget 1 and a non-empty
completion reply. -/
theorem c2_witness :
    (1 ≤ (1 : Nat)) ∧
    ((process_request env_c2w "hello" 1).trace.length ≤ 1 + 3 ∧
     (process_request env_c2w "hello" 1).final_response ≠ "" ∧
     (∀ s, (_analyze_request_node env_c2w s).step_count = s.step_count + 1) ∧
     (∀ s, (_execute_tools_node env_c2w s).step_count = s.step_count + 1) ∧
     (∀ s, (_error_recovery_node env_c2w s).step_count = s.step_count + 1) ∧
     (∀ s s2, _generate_response_node env_c2w s = Except.ok s2 → s2.step_count = s.step_count + 1)) :=
  ⟨by decide,
    c2_budget_bounds_run env_c2w "hello" 1 (by decide)
      (fun t h => by simp [env_c2w] at h; subst h; decide)
      (fun t h => by simp [env_c2w] at h; subst h; decide)⟩

/-- C8 counterexample: when the completion service throws during planning
but succeeds during response synthesis, the run reaches Respond with the
synthesis output, which does not reference the original request text, and
no generic task summary is substituted (the task stays empty, because the
intended fallback itself raises on the missing `_create_fallback_tools`). -/
theorem c8_counterexample :
    (process_request env_c8x "please summarise my files" 10).final_response = "OK" ∧
    (process_request env_c8x "please summarise my files" 10).success = true ∧
    (_analyze_request_node env_c8x (initial_state "please summarise my files" 10)).current_task = "" ∧
    ¬ ∃ pre post, (process_request env_c8x "please summarise my files" 10).final_response =
        pre ++ "please summarise my files" ++ post := by
  have hOK : (process_request env_c8x "please summarise my files" 10).final_response = "OK" := by
    decide
  refine ⟨hOK, by decide, by decide, ?_⟩
  rintro ⟨pre, post, h⟩
  rw [hOK] at h
  have hlen := congrArg String.length h
  rw [String.length_append, String.length_append] at hlen
  have h2 : ("OK" : String).length = 2 := by decide
  have h25 : ("please summarise my files" : String).length = 25 := by decide
  rw [h2, h25] at hlen
  omega

/-- C8 (amended): if the completion service throws during planning, or its
reply is unparsable, not an object, or lacks the selected-tools field, the
run does not fail: the plan is substituted with an empty tool list, the
workflow still reaches Respond, and if the completion service also fails
during response synthesis the final answer references the original request
text verbatim. -/
theorem c8_planning_failure_degrades (env : Env) (request : String) (B : Nat)
    (hconn : env.connect = ConnectBehavior.ok)
    (htrigger : (∃ m, env.plan = PlanBehavior.throws m) ∨
      (∃ m, env.plan = PlanBehavior.reply (ParsedReply.unparsable m)) ∨
      env.plan = PlanBehavior.reply ParsedReply.notObject ∨
      (∃ task p, env.plan = PlanBehavior.reply (ParsedReply.object task none p))) :
    (_analyze_request_node env (initial_state request B)).selected_tools = [] ∧
    (process_request env request B).success = true ∧
    (process_request env request B).tool_results = [] ∧
    (process_request env request B).trace = [NodeTag.analyze, NodeTag.execute, NodeTag.respond] ∧
    (∀ m, env.respond_no_tools = CompletionBehavior.throws m →
      ∃ pre post, (process_request env request B).final_response = pre ++ request ++ post) := by
  have hsel1 : (_analyze_request_node env (initial_state request B)).selected_tools = [] := by
    unfold _analyze_request_node
    rw [hconn]
    rcases htrigger with ⟨m, hp⟩ | ⟨m, hp⟩ | hp | ⟨task, p, hp⟩ <;> rw [hp] <;> rfl
  have hs2res : (_execute_tools_node env
      (_analyze_request_node env (initial_state request B))).tool_results = [] := by
    rw [execute_empty_plan env _ hsel1, analyze_keeps_tool_results]
    rfl
  have hnoterr : _should_continue_execution (_execute_tools_node env
      (_analyze_request_node env (initial_state request B))) ≠ "error" := by
    unfold _should_continue_execution
    rw [execute_keeps_selected_tools, hsel1]
    split
    · simp
    · simp
  obtain ⟨s4, hgen⟩ := generate_no_tools_ok env _ hs2res
  have horig : original_request (_execute_tools_node env
      (_analyze_request_node env (initial_state request B))) = request := by
    obtain ⟨ms1, h1⟩ := analyze_messages_append env (initial_state request B)
    obtain ⟨ms2, h2⟩ := execute_messages_append env
      (_analyze_request_node env (initial_state request B))
    unfold original_request
    rw [h2, h1]
    rfl
  refine ⟨hsel1, ?_, ?_, ?_, ?_⟩
  · rw [process_request_eq, if_neg hnoterr, hgen]
  · rw [process_request_eq, if_neg hnoterr, hgen]
    show s4.tool_results = []
    rw [generate_keeps_tool_results env _ s4 hgen]
    exact hs2res
  · rw [process_request_eq, if_neg hnoterr, hgen]
  · intro m hm
    rw [process_request_eq, if_neg hnoterr, hgen]
    rcases generate_no_tools_final env _ s4 hs2res hgen with ⟨t, hw, _⟩ | ⟨_, hfin⟩
    · rw [hm] at hw
      simp at hw
    · exact ⟨"I understand you're asking about: ",
        "\n\nI encountered some technical difficulties, but I'm here to help. Could you please rephrase your request or ask something specific I can assist with?",
        by show s4.final_response = _; rw [hfin, horig]⟩

/-- C8 witness: a concrete run whose planning and synthesis completions both
throw still succeeds with an empty plan and an answer quoting the request. -/
theorem c8_witness :
    env_c8w.connect = ConnectBehavior.ok ∧
    ((_analyze_request_node env_c8w (initial_state "help me" 10)).selected_tools = [] ∧
     (process_request env_c8w "help me" 10).success = true ∧
     (process_request env_c8w "help me" 10).tool_results = [] ∧
     (process_request env_c8w "help me" 10).trace = [NodeTag.analyze, NodeTag.execute, NodeTag.respond] ∧
     (∀ m, env_c8w.respond_no_tools = CompletionBehavior.throws m →
      ∃ pre post, (process_request env_c8w "help me" 10).final_response = pre ++ "help me" ++ post)) :=
  ⟨rfl, c8_planning_failure_degrades env_c8w "help me" 10 rfl (Or.inl ⟨"service down", rfl⟩)⟩
